import Mathlib

/-!
Shallow embedding of the `Equipos` React component
(src/src/Equipos.js and its duplicate src/unnamed/part_000).

The component owns six pieces of state (`equipos`, `formValues`, `loading`,
`error`, `success`, `deletingId`) and three async handlers (`fetchEquipos`,
`handleSubmit`, `handleDelete`).  Each handler is embedded as a pure function
from the current state and the backend outcome(s) to the final state together
with the list of HTTP requests it issued; every issued request is recorded
together with the client state in effect at the moment the request went out
(after all preceding setState calls of the handler), which is the state the
UI observes for the whole time that request is outstanding.
-/

/-- One equipment record as served by the backend and stored in `equipos`. -/
structure Equipo where
  id : Nat
  nombre : String
  tipo : String
  ubicacion : String
  estado : String
deriving DecidableEq

/-- The `formValues` state: the four editable draft fields. -/
structure FormValues where
  nombre : String
  tipo : String
  ubicacion : String
  estado : String
deriving DecidableEq

/-- The component state: `equipos`, `formValues`, `loading`, `error`,
`success`, `deletingId` from the useState hooks of Equipos.js. -/
structure ClientState where
  equipos : List Equipo
  formValues : FormValues
  loading : Bool
  error : Option String
  success : Option String
  deletingId : Option Nat
deriving DecidableEq

/-- The parsed outcome of `await response.json()`: either the body is not
valid JSON (the parse rejects with a message), or it parses to an object with
an optional `message` field and an optional `items` array. -/
inductive Body where
  | malformed (msg : String)
  | json (message : Option String) (items : Option (List Equipo))
deriving DecidableEq

/-- The outcome of one `fetch` call: the fetch promise rejects (network
error, carrying the exception message), or a response with a status code and
a body arrives. -/
inductive FetchResult where
  | networkError (msg : String)
  | response (status : Nat) (body : Body)
deriving DecidableEq

/-- An HTTP request as issued by the component: a GET, or a POST with
multipart form fields. -/
inductive Request where
  | get (url : String)
  | post (url : String) (fields : List (String × String))
deriving DecidableEq

/-- A request recorded in a handler trace, together with the client state in
effect while that request was outstanding. -/
structure TraceItem where
  req : Request
  stateAtIssue : ClientState
deriving DecidableEq

/-- `Response.ok` of the fetch API: status in the range 200..299. -/
def statusOk (status : Nat) : Bool :=
  200 ≤ status && status ≤ 299

/-- Whether the (whole) list `pat` occurs contiguously inside `l`. -/
def listInfix (pat : List Char) : List Char → Bool
  | [] => pat.isEmpty
  | c :: rest => pat.isPrefixOf (c :: rest) || listInfix pat rest

/-- JavaScript `s.includes(pat)`: substring containment. -/
def strIncludes (s pat : String) : Bool :=
  listInfix pat.toList s.toList

/-- The base URL constant of src/src/Equipos.js. -/
def baseUrlMain : String :=
  "https://apex.oracle.com/pls/apex/rogelioaluminios/equipos/"

/-- The base URL constant of the duplicate copy src/unnamed/part_000; the
only non-style difference between the two copies. -/
def baseUrlAlt : String :=
  "https://apex.oracle.com/pls/apex/elrafas44/equipos/"

/-- The draft with all four fields cleared, as set after a successful
create: `setFormValues({ nombre: "", tipo: "", ubicacion: "", estado: "" })`. -/
def emptyForm : FormValues :=
  ⟨"", "", "", ""⟩

/-- The validation check of handleSubmit: true when at least one of the four
draft fields is the empty string (JS falsiness of `formValues.<field>`). -/
def anyFieldEmpty (fv : FormValues) : Bool :=
  fv.nombre == "" || fv.tipo == "" || fv.ubicacion == "" || fv.estado == ""

/-- The hint text handleSubmit appends inside its catch block. -/
def hint : String :=
  " - Verifica la configuración del endpoint REST"

/-- The catch block of handleSubmit: `setError(error.message)` followed by
the conditional functional update that appends `hint` when the message
contains the substring "555". -/
def applyCatch (s : ClientState) (m : String) : ClientState :=
  let s2 := { s with error := some m }
  if strIncludes m "555" then
    { s2 with error := some (m ++ hint) }
  else
    s2

/-- `fetchEquipos` of Equipos.js.  Sets `loading` to true, issues the GET,
parses the body before checking `response.ok` (so a malformed body is a
failure even on 2xx); on success stores `data.items || []` and clears
`error`; on any failure empties `equipos` and stores the error message; the
finally block resets `loading`. -/
def fetchEquipos (baseUrl : String) (s : ClientState) (r : FetchResult) :
    ClientState × List TraceItem :=
  let s1 := { s with loading := true }
  let tr := [TraceItem.mk (Request.get baseUrl) s1]
  match r with
  | .networkError m =>
      ({ s1 with equipos := [], error := some m, loading := false }, tr)
  | .response status body =>
      match body with
      | .malformed m =>
          ({ s1 with equipos := [], error := some m, loading := false }, tr)
      | .json message items =>
          if statusOk status then
            ({ s1 with
                equipos := items.getD [], error := none,
                loading := false }, tr)
          else
            ({ s1 with
                equipos := [],
                error := some (message.getD "Error al cargar equipos"),
                loading := false }, tr)

/-- `handleSubmit` of Equipos.js.  Sets `loading` and clears both messages;
throws a validation error (no request) when a draft field is empty;
otherwise POSTs the four fields, parses the body before checking the status,
special-cases status 555's default message, and on 2xx sets `success`,
resets the draft, and awaits `fetchEquipos`; the catch block is
`applyCatch`; the finally block resets `loading`. -/
def handleSubmit (baseUrl : String) (s : ClientState) (createRes : FetchResult)
    (refreshRes : FetchResult) : ClientState × List TraceItem :=
  let s1 := { s with loading := true, error := none, success := none }
  if anyFieldEmpty s.formValues then
    ({ (applyCatch s1 "Todos los campos son obligatorios") with
        loading := false }, [])
  else
    let fields := [("nombre", s.formValues.nombre), ("tipo", s.formValues.tipo),
      ("ubicacion", s.formValues.ubicacion), ("estado", s.formValues.estado)]
    let tr0 := [TraceItem.mk (Request.post baseUrl fields) s1]
    match createRes with
    | .networkError m =>
        ({ (applyCatch s1 m) with loading := false }, tr0)
    | .response status body =>
        match body with
        | .malformed m =>
            ({ (applyCatch s1 m) with loading := false }, tr0)
        | .json message _items =>
            if statusOk status then
              let s2 := { s1 with
                success := some "Equipo registrado correctamente",
                formValues := emptyForm }
              let res := fetchEquipos baseUrl s2 refreshRes
              ({ res.1 with loading := false }, tr0 ++ res.2)
            else
              let m :=
                if status == 555 then
                  message.getD "Error en el servidor ORDS (555)"
                else
                  message.getD ("Error " ++ toString status)
              ({ (applyCatch s1 m) with loading := false }, tr0)

/-- `handleDelete` of Equipos.js.  Returns unchanged when the confirmation
dialog is declined; otherwise sets `deletingId` and clears both messages,
POSTs the method-override form to `baseUrl?id=<id>`, never parses the body,
and on 2xx sets `success`, filters the record out of `equipos`, and awaits
`fetchEquipos`; on failure sets the fixed error message; the finally block
clears `deletingId`.  `loading` is never touched by this handler itself. -/
def handleDelete (baseUrl : String) (s : ClientState) (confirmed : Bool)
    (id : Nat) (deleteRes : FetchResult) (refreshRes : FetchResult) :
    ClientState × List TraceItem :=
  if !confirmed then (s, [])
  else
    let s1 := { s with deletingId := some id, error := none, success := none }
    let url := baseUrl ++ ("?id=" ++ toString id)
    let fields := [("_method", "DELETE"), ("id", toString id)]
    let tr0 := [TraceItem.mk (Request.post url fields) s1]
    match deleteRes with
    | .networkError m =>
        ({ s1 with error := some m, deletingId := none }, tr0)
    | .response status _body =>
        if statusOk status then
          let s2 := { s1 with
            success := some "Equipo eliminado correctamente",
            equipos := s1.equipos.filter (fun e => e.id != id) }
          let res := fetchEquipos baseUrl s2 refreshRes
          ({ res.1 with deletingId := none }, tr0 ++ res.2)
        else
          ({ s1 with
              error := some "Error al eliminar equipo",
              deletingId := none }, tr0)

/-- Whether a trace item is a GET (a list refresh). -/
def isGet (i : TraceItem) : Bool :=
  match i.req with
  | .get _ => true
  | .post _ _ => false

/-- How many GET requests a trace contains. -/
def countGets (tr : List TraceItem) : Nat :=
  tr.countP isGet

/-- Whether a create fetch outcome is the success case of handleSubmit: a
response whose body parses as JSON and whose status is 2xx. -/
def createSucceeded : FetchResult → Bool
  | .response status (.json _ _) => statusOk status
  | _ => false

/-- A concrete idle state with one record and a fully filled draft, used as
the concrete input of witnesses and counterexamples. -/
def sExample : ClientState :=
  { equipos := [⟨1, "Drill", "Tool", "Shelf A", "Activo"⟩],
    formValues := ⟨"Saw", "Tool", "Shelf B", "Activo"⟩,
    loading := false, error := none, success := none, deletingId := none }

/-- Correspondence between a request of the src/src/Equipos.js copy and the
request the src/unnamed/part_000 copy issues at the same point: the observed
state is identical and the URLs differ exactly by the base URL constant. -/
def itemCorr (i j : TraceItem) : Prop :=
  i.stateAtIssue = j.stateAtIssue ∧
  match i.req, j.req with
  | .get u1, .get u2 =>
      ∃ suf, u1 = baseUrlMain ++ suf ∧ u2 = baseUrlAlt ++ suf
  | .post u1 f1, .post u2 f2 =>
      f1 = f2 ∧ ∃ suf, u1 = baseUrlMain ++ suf ∧ u2 = baseUrlAlt ++ suf
  | _, _ => False

/-- Every run of fetchEquipos issues exactly the one GET, with `loading`
already set to true in the state at issue. -/
theorem fetchEquipos_trace (b : String) (s : ClientState) (r : FetchResult) :
    (fetchEquipos b s r).2 =
      [TraceItem.mk (Request.get b) { s with loading := true }] := by
  rcases r with m | ⟨status, body⟩
  · rfl
  · rcases body with m | ⟨message, items⟩
    · rfl
    · by_cases h : statusOk status <;> simp [fetchEquipos, h]

/-- fetchEquipos never touches the draft, the success message or
`deletingId`, and always leaves `loading` false. -/
theorem fetchEquipos_frame (b : String) (s : ClientState) (r : FetchResult) :
    (fetchEquipos b s r).1.formValues = s.formValues ∧
    (fetchEquipos b s r).1.success = s.success ∧
    (fetchEquipos b s r).1.deletingId = s.deletingId ∧
    (fetchEquipos b s r).1.loading = false := by
  rcases r with m | ⟨status, body⟩
  · exact ⟨rfl, rfl, rfl, rfl⟩
  · rcases body with m | ⟨message, items⟩
    · exact ⟨rfl, rfl, rfl, rfl⟩
    · by_cases h : statusOk status <;> simp [fetchEquipos, h]

/-- The state fetchEquipos produces does not depend on the base URL. -/
theorem fetchEquipos_fst_indep (b1 b2 : String) (s : ClientState)
    (r : FetchResult) : (fetchEquipos b1 s r).1 = (fetchEquipos b2 s r).1 := by
  rcases r with m | ⟨status, body⟩
  · rfl
  · rcases body with m | ⟨message, items⟩
    · rfl
    · by_cases h : statusOk status <;> simp [fetchEquipos, h]

/-- The catch block of handleSubmit never touches the draft. -/
theorem applyCatch_formValues (s : ClientState) (m : String) :
    (applyCatch s m).formValues = s.formValues := by
  unfold applyCatch
  split <;> rfl

/-- The catch block of handleSubmit leaves every field except `error`
unchanged, and stores the message with the hint appended exactly when the
message contains the substring "555". -/
theorem applyCatch_error (s : ClientState) (m : String) :
    (applyCatch s m).error =
      some (if strIncludes m "555" then m ++ hint else m) := by
  unfold applyCatch
  split <;> simp [*]

/-- The draft is unchanged by a fetchEquipos refresh. -/
theorem fetchEquipos_fst_formValues (b : String) (s : ClientState)
    (r : FetchResult) : (fetchEquipos b s r).1.formValues = s.formValues :=
  (fetchEquipos_frame b s r).1

/-- The success message is unchanged by a fetchEquipos refresh. -/
theorem fetchEquipos_fst_success (b : String) (s : ClientState)
    (r : FetchResult) : (fetchEquipos b s r).1.success = s.success :=
  (fetchEquipos_frame b s r).2.1

/-- `deletingId` is unchanged by a fetchEquipos refresh. -/
theorem fetchEquipos_fst_deletingId (b : String) (s : ClientState)
    (r : FetchResult) : (fetchEquipos b s r).1.deletingId = s.deletingId :=
  (fetchEquipos_frame b s r).2.2.1

/-- C9: when the list GET yields a 2xx response whose body parses as JSON,
`equipos` is assigned the `items` array (absent `items` gives the empty
list) and `error` is cleared. -/
theorem claim9_list_success (b : String) (s : ClientState) (status : Nat)
    (message : Option String) (items : Option (List Equipo))
    (h : statusOk status = true) :
    (fetchEquipos b s (.response status (.json message items))).1.equipos =
      items.getD [] ∧
    (fetchEquipos b s (.response status (.json message items))).1.error =
      none := by
  simp [fetchEquipos, h]

/-- Witness for C9: the spec scenario, a 200 response whose `items` holds the
single Drill record. -/
theorem claim9_witness :
    statusOk 200 = true ∧
    ((fetchEquipos baseUrlMain sExample
        (.response 200
          (.json none (some [⟨1, "Drill", "Tool", "Shelf A", "Activo"⟩])))).1.equipos =
      (some [(⟨1, "Drill", "Tool", "Shelf A", "Activo"⟩ : Equipo)]).getD [] ∧
    (fetchEquipos baseUrlMain sExample
        (.response 200
          (.json none (some [⟨1, "Drill", "Tool", "Shelf A", "Activo"⟩])))).1.error =
      none) :=
  ⟨by decide, claim9_list_success baseUrlMain sExample 200 none
    (some [⟨1, "Drill", "Tool", "Shelf A", "Activo"⟩]) (by decide)⟩

/-- C4: on every failing list fetch (network error, malformed body, or
non-2xx status) `equipos` becomes empty whatever it held before, and `error`
holds the caught message: the server message when the parsed body has one,
the fallback "Error al cargar equipos" when a parsed body lacks one, and the
transport or parse exception message otherwise. -/
theorem claim4_list_failure (b : String) (s : ClientState) :
    (∀ m, (fetchEquipos b s (.networkError m)).1.equipos = [] ∧
      (fetchEquipos b s (.networkError m)).1.error = some m) ∧
    (∀ status m,
      (fetchEquipos b s (.response status (.malformed m))).1.equipos = [] ∧
      (fetchEquipos b s (.response status (.malformed m))).1.error = some m) ∧
    (∀ status message items, statusOk status = false →
      (fetchEquipos b s (.response status (.json message items))).1.equipos =
        [] ∧
      (fetchEquipos b s (.response status (.json message items))).1.error =
        some (message.getD "Error al cargar equipos")) := by
  refine ⟨fun m => ⟨rfl, rfl⟩, fun status m => ⟨rfl, rfl⟩,
    fun status message items h => ?_⟩
  simp [fetchEquipos, h]

/-- Witness for C4: a 404 whose body carries a message empties a non-empty
`equipos` and surfaces that message. -/
theorem claim4_witness :
    (fetchEquipos baseUrlMain sExample
        (.response 404 (.json (some "No encontrado") none))).1.equipos = [] ∧
    (fetchEquipos baseUrlMain sExample
        (.response 404 (.json (some "No encontrado") none))).1.error =
      some ((some "No encontrado").getD "Error al cargar equipos") :=
  (claim4_list_failure baseUrlMain sExample).2.2 404 (some "No encontrado")
    none (by decide)

/-- C5: with a fully filled draft, a 2xx create response sets the success
message, resets the draft to all-empty strings, and triggers exactly one
list refresh. -/
theorem claim5_create_success (b : String) (s : ClientState) (status : Nat)
    (message : Option String) (items : Option (List Equipo)) (rr : FetchResult)
    (hv : anyFieldEmpty s.formValues = false) (h : statusOk status = true) :
    (handleSubmit b s (.response status (.json message items)) rr).1.success =
      some "Equipo registrado correctamente" ∧
    (handleSubmit b s (.response status (.json message items)) rr).1.formValues =
      emptyForm ∧
    countGets (handleSubmit b s (.response status (.json message items)) rr).2 =
      1 := by
  simp [handleSubmit, hv, h, fetchEquipos_fst_success,
    fetchEquipos_fst_formValues, countGets, fetchEquipos_trace, isGet,
    List.countP_cons, List.countP_append]

/-- Witness for C5: the spec scenario, creating the Saw draft with a 201. -/
theorem claim5_witness :
    anyFieldEmpty sExample.formValues = false ∧ statusOk 201 = true ∧
    ((handleSubmit baseUrlMain sExample (.response 201 (.json none none))
        (.response 200 (.json none (some [])))).1.success =
      some "Equipo registrado correctamente" ∧
    (handleSubmit baseUrlMain sExample (.response 201 (.json none none))
        (.response 200 (.json none (some [])))).1.formValues = emptyForm ∧
    countGets (handleSubmit baseUrlMain sExample
        (.response 201 (.json none none))
        (.response 200 (.json none (some [])))).2 = 1) :=
  ⟨by decide, by decide, claim5_create_success baseUrlMain sExample 201 none
    none (.response 200 (.json none (some []))) (by decide) (by decide)⟩

/-- C6: a confirmed delete answered 2xx sets the success message, and every
list refresh it issues (exactly one) is issued from the state in which every
record with the deleted id has already been filtered out of `equipos`. -/
theorem claim6_delete_success (b : String) (s : ClientState) (id status : Nat)
    (body : Body) (rr : FetchResult) (h : statusOk status = true) :
    (handleDelete b s true id (.response status body) rr).1.success =
      some "Equipo eliminado correctamente" ∧
    (∀ i ∈ (handleDelete b s true id (.response status body) rr).2,
      isGet i = true →
        i.stateAtIssue.equipos = s.equipos.filter (fun e => e.id != id) ∧
        i.stateAtIssue.success = some "Equipo eliminado correctamente") ∧
    countGets (handleDelete b s true id (.response status body) rr).2 = 1 := by
  refine ⟨?_, ?_, ?_⟩ <;>
    simp [handleDelete, h, fetchEquipos_fst_success, fetchEquipos_trace,
      countGets, isGet, List.countP_cons, List.countP_append]

/-- Witness for C6: the spec scenario, a confirmed remove of id 1 answered
200; the single refresh GET sees `equipos` already emptied of the record. -/
theorem claim6_witness :
    statusOk 200 = true ∧
    ((handleDelete baseUrlMain sExample true 1
        (.response 200 (.json none none))
        (.response 200 (.json none (some [])))).1.success =
      some "Equipo eliminado correctamente" ∧
    (∀ i ∈ (handleDelete baseUrlMain sExample true 1
        (.response 200 (.json none none))
        (.response 200 (.json none (some [])))).2,
      isGet i = true →
        i.stateAtIssue.equipos =
          sExample.equipos.filter (fun e => e.id != 1) ∧
        i.stateAtIssue.success = some "Equipo eliminado correctamente") ∧
    countGets (handleDelete baseUrlMain sExample true 1
        (.response 200 (.json none none))
        (.response 200 (.json none (some [])))).2 = 1) :=
  ⟨by decide, claim6_delete_success baseUrlMain sExample 1 200
    (.json none none) (.response 200 (.json none (some []))) (by decide)⟩

/-- C7: a draft with an empty field makes handleSubmit issue no request at
all and report the validation error. -/
theorem claim7_validation (b : String) (s : ClientState) (cr rr : FetchResult)
    (hv : anyFieldEmpty s.formValues = true) :
    (handleSubmit b s cr rr).2 = [] ∧
    (handleSubmit b s cr rr).1.error =
      some "Todos los campos son obligatorios" := by
  have hni : strIncludes "Todos los campos son obligatorios" "555" = false := by
    decide
  simp [handleSubmit, hv, applyCatch, hni]

/-- Witness for C7: an all-empty draft yields no request and the validation
message. -/
theorem claim7_witness :
    anyFieldEmpty emptyForm = true ∧
    ((handleSubmit baseUrlMain { sExample with formValues := emptyForm }
        (.networkError "x") (.networkError "x")).2 = [] ∧
    (handleSubmit baseUrlMain { sExample with formValues := emptyForm }
        (.networkError "x") (.networkError "x")).1.error =
      some "Todos los campos son obligatorios") :=
  ⟨by decide, claim7_validation baseUrlMain
    { sExample with formValues := emptyForm } (.networkError "x")
    (.networkError "x") (by decide)⟩

/-- C10: whenever the create attempt does not reach its success branch
(validation failure, network error, malformed body, or non-2xx status) the
draft keeps the exact field values it had before. -/
theorem claim10_draft_preserved (b : String) (s : ClientState)
    (cr rr : FetchResult)
    (h : anyFieldEmpty s.formValues = true ∨ createSucceeded cr = false) :
    (handleSubmit b s cr rr).1.formValues = s.formValues := by
  by_cases hv : anyFieldEmpty s.formValues = true
  · simp [handleSubmit, hv, applyCatch_formValues]
  · have hv2 : anyFieldEmpty s.formValues = false := by
      simpa using hv
    rcases h with h | h
    · exact absurd h hv
    · rcases cr with m | ⟨status, body⟩
      · simp [handleSubmit, hv2, applyCatch_formValues]
      · rcases body with m | ⟨message, items⟩
        · simp [handleSubmit, hv2, applyCatch_formValues]
        · have hok : statusOk status = false := by
            simpa [createSucceeded] using h
          simp [handleSubmit, hv2, hok, applyCatch_formValues]

/-- Witness for C10: a valid draft and a 500 create response leave the draft
untouched. -/
theorem claim10_witness :
    (anyFieldEmpty sExample.formValues = true ∨
      createSucceeded (.response 500 (.json (some "boom") none)) = false) ∧
    (handleSubmit baseUrlMain sExample
        (.response 500 (.json (some "boom") none))
        (.networkError "x")).1.formValues = sExample.formValues :=
  ⟨Or.inr (by decide), claim10_draft_preserved baseUrlMain sExample
    (.response 500 (.json (some "boom") none)) (.networkError "x")
    (Or.inr (by decide))⟩

/-- Every request fetchEquipos issues goes out with `loading` true. -/
theorem fetchEquipos_trace_loading (b : String) (s : ClientState)
    (r : FetchResult) :
    ∀ i ∈ (fetchEquipos b s r).2, i.stateAtIssue.loading = true := by
  intro i hi
  rw [fetchEquipos_trace] at hi
  simp at hi
  subst hi
  rfl

/-- Every request handleSubmit issues (the create POST and any nested list
refresh) goes out with `loading` true. -/
theorem handleSubmit_trace_loading (b : String) (s : ClientState)
    (cr rr : FetchResult) :
    ∀ i ∈ (handleSubmit b s cr rr).2, i.stateAtIssue.loading = true := by
  intro i hi
  by_cases hv : anyFieldEmpty s.formValues = true
  · simp [handleSubmit, hv] at hi
  · have hv2 : anyFieldEmpty s.formValues = false := by simpa using hv
    rcases cr with m | ⟨status, body⟩
    · simp [handleSubmit, hv2] at hi
      subst hi; rfl
    · rcases body with m | ⟨message, items⟩
      · simp [handleSubmit, hv2] at hi
        subst hi; rfl
      · by_cases hok : statusOk status = true
        · simp [handleSubmit, hv2, hok, fetchEquipos_trace] at hi
          rcases hi with hi | hi <;> (subst hi; rfl)
        · have hok2 : statusOk status = false := by simpa using hok
          simp [handleSubmit, hv2, hok2] at hi
          subst hi; rfl

/-- Every request a confirmed handleDelete issues (the delete POST and any
nested list refresh) goes out with `deletingId` still set to the id. -/
theorem handleDelete_trace_deletingId (b : String) (s : ClientState)
    (id : Nat) (dr rr : FetchResult) :
    ∀ i ∈ (handleDelete b s true id dr rr).2,
      i.stateAtIssue.deletingId = some id := by
  intro i hi
  rcases dr with m | ⟨status, body⟩
  · simp [handleDelete] at hi
    subst hi; rfl
  · by_cases hok : statusOk status = true
    · simp [handleDelete, hok, fetchEquipos_trace] at hi
      rcases hi with hi | hi <;> (subst hi; rfl)
    · have hok2 : statusOk status = false := by simpa using hok
      simp [handleDelete, hok2] at hi
      subst hi; rfl

/-- The state handleSubmit produces does not depend on the base URL. -/
theorem handleSubmit_fst_indep (b1 b2 : String) (s : ClientState)
    (cr rr : FetchResult) :
    (handleSubmit b1 s cr rr).1 = (handleSubmit b2 s cr rr).1 := by
  by_cases hv : anyFieldEmpty s.formValues = true
  · simp [handleSubmit, hv]
  · have hv2 : anyFieldEmpty s.formValues = false := by simpa using hv
    rcases cr with m | ⟨status, body⟩
    · simp [handleSubmit, hv2]
    · rcases body with m | ⟨message, items⟩
      · simp [handleSubmit, hv2]
      · by_cases hok : statusOk status = true
        · simp [handleSubmit, hv2, hok, fetchEquipos_fst_indep b1 b2]
        · have hok2 : statusOk status = false := by simpa using hok
          simp [handleSubmit, hv2, hok2]

/-- The state handleDelete produces does not depend on the base URL. -/
theorem handleDelete_fst_indep (b1 b2 : String) (s : ClientState) (c : Bool)
    (id : Nat) (dr rr : FetchResult) :
    (handleDelete b1 s c id dr rr).1 = (handleDelete b2 s c id dr rr).1 := by
  rcases c with _ | _
  · rfl
  · rcases dr with m | ⟨status, body⟩
    · rfl
    · by_cases hok : statusOk status = true
      · simp [handleDelete, hok, fetchEquipos_fst_indep b1 b2]
      · have hok2 : statusOk status = false := by simpa using hok
        simp [handleDelete, hok2]

/-- The GET traces of the two copies of fetchEquipos correspond item by
item: same observed state, URLs differing only in the base URL. -/
theorem fetchEquipos_corr (s : ClientState) (r : FetchResult) :
    List.Forall₂ itemCorr (fetchEquipos baseUrlMain s r).2
      (fetchEquipos baseUrlAlt s r).2 := by
  rw [fetchEquipos_trace, fetchEquipos_trace]
  exact List.Forall₂.cons ⟨rfl, "", by decide, by decide⟩ List.Forall₂.nil

/-- The request traces of the two copies of handleSubmit correspond item by
item: same observed states, same form fields, URLs differing only in the
base URL. -/
theorem handleSubmit_corr (s : ClientState) (cr rr : FetchResult) :
    List.Forall₂ itemCorr (handleSubmit baseUrlMain s cr rr).2
      (handleSubmit baseUrlAlt s cr rr).2 := by
  by_cases hv : anyFieldEmpty s.formValues = true
  · have h1 : (handleSubmit baseUrlMain s cr rr).2 = [] := by
      simp [handleSubmit, hv]
    have h2 : (handleSubmit baseUrlAlt s cr rr).2 = [] := by
      simp [handleSubmit, hv]
    rw [h1, h2]
    exact List.Forall₂.nil
  · have hv2 : anyFieldEmpty s.formValues = false := by simpa using hv
    rcases cr with m | ⟨status, body⟩
    · simp only [handleSubmit, hv2, Bool.false_eq_true, if_false]
      exact List.Forall₂.cons ⟨rfl, rfl, "", by decide, by decide⟩
        List.Forall₂.nil
    · rcases body with m | ⟨message, items⟩
      · simp only [handleSubmit, hv2, Bool.false_eq_true, if_false]
        exact List.Forall₂.cons ⟨rfl, rfl, "", by decide, by decide⟩
          List.Forall₂.nil
      · by_cases hok : statusOk status = true
        · simp only [handleSubmit, hv2, Bool.false_eq_true, if_false, hok,
            if_true]
          rw [fetchEquipos_trace baseUrlMain, fetchEquipos_trace baseUrlAlt]
          refine List.Forall₂.cons ⟨rfl, rfl, "", by decide, by decide⟩ ?_
          exact List.Forall₂.cons ⟨rfl, "", by decide, by decide⟩
            List.Forall₂.nil
        · have hok2 : statusOk status = false := by simpa using hok
          simp only [handleSubmit, hv2, Bool.false_eq_true, if_false, hok2]
          exact List.Forall₂.cons ⟨rfl, rfl, "", by decide, by decide⟩
            List.Forall₂.nil

/-- The request traces of the two copies of handleDelete correspond item by
item: same observed states, same form fields, URLs differing only in the
base URL. -/
theorem handleDelete_corr (s : ClientState) (c : Bool) (id : Nat)
    (dr rr : FetchResult) :
    List.Forall₂ itemCorr (handleDelete baseUrlMain s c id dr rr).2
      (handleDelete baseUrlAlt s c id dr rr).2 := by
  rcases c with _ | _
  · exact List.Forall₂.nil
  · rcases dr with m | ⟨status, body⟩
    · simp only [handleDelete, Bool.not_true, Bool.false_eq_true, if_false]
      exact List.Forall₂.cons
        ⟨rfl, rfl, "?id=" ++ toString id, rfl, rfl⟩ List.Forall₂.nil
    · by_cases hok : statusOk status = true
      · simp only [handleDelete, Bool.not_true, Bool.false_eq_true, if_false,
          hok, if_true]
        rw [fetchEquipos_trace baseUrlMain, fetchEquipos_trace baseUrlAlt]
        refine List.Forall₂.cons
          ⟨rfl, rfl, "?id=" ++ toString id, rfl, rfl⟩ ?_
        exact List.Forall₂.cons ⟨rfl, "", by decide, by decide⟩
          List.Forall₂.nil
      · have hok2 : statusOk status = false := by simpa using hok
        simp only [handleDelete, Bool.not_true, Bool.false_eq_true, if_false,
          hok2]
        exact List.Forall₂.cons
          ⟨rfl, rfl, "?id=" ++ toString id, rfl, rfl⟩ List.Forall₂.nil

/-- C1 counterexample: create answered HTTP 555 with body message
"bad config" leaves `error` at exactly "bad config"; the configuration hint
is NOT appended, because the catch block appends it only when the message
contains the substring "555", which the server message does not. -/
theorem claim1_counterexample :
    (handleSubmit baseUrlMain sExample
        (.response 555 (.json (some "bad config") none))
        (.networkError "x")).1.error = some "bad config" ∧
    (some "bad config" : Option String) ≠
      some "bad config - Verifica la configuración del endpoint REST" := by
  decide

/-- C1 amended: on an HTTP 555 create response with a parsed JSON body, the
resulting `error` is the server message (or the default
"Error en el servidor ORDS (555)" when the body has none), with the
configuration hint appended exactly when that message contains the
substring "555" — so a server message such as "bad config" is surfaced
without the hint, while the default message does get the hint. -/
theorem claim1_amended (b : String) (s : ClientState) (message : Option String)
    (items : Option (List Equipo)) (rr : FetchResult)
    (hv : anyFieldEmpty s.formValues = false) :
    (handleSubmit b s (.response 555 (.json message items)) rr).1.error =
      some
        (if strIncludes (message.getD "Error en el servidor ORDS (555)") "555"
         then (message.getD "Error en el servidor ORDS (555)") ++ hint
         else message.getD "Error en el servidor ORDS (555)") := by
  have h555 : statusOk 555 = false := by decide
  simp [handleSubmit, hv, h555, applyCatch_error]

/-- Witness for the amended C1: at status 555 with server message
"bad config" the error is exactly "bad config". -/
theorem claim1_amended_witness :
    anyFieldEmpty sExample.formValues = false ∧
    (handleSubmit baseUrlMain sExample
        (.response 555 (.json (some "bad config") none))
        (.networkError "x")).1.error = some "bad config" := by
  refine ⟨by decide, ?_⟩
  have h := claim1_amended baseUrlMain sExample (some "bad config") none
    (.networkError "x") (by decide)
  rw [h]
  decide

/-- C2 counterexample: a confirmed delete from the idle state issues its
POST (the non-GET first trace item) while `loading` is false — only the
nested refresh GET runs with `loading` true — refuting that `isBusy` is
true for the duration of all three operations' requests. -/
theorem claim2_counterexample :
    ((handleDelete baseUrlMain sExample true 1
        (.response 200 (.json none none))
        (.response 200 (.json none (some [])))).2.map
      (fun i => (isGet i, i.stateAtIssue.loading))) =
      [(false, false), (true, true)] := by
  decide

/-- C2 amended: every request fetchEquipos or handleSubmit issues goes out
with `loading` true, while every request a confirmed handleDelete issues
goes out with `deletingId` set to the id being deleted — the delete POST is
tracked by `deletingId`, not by `loading`. -/
theorem claim2_amended :
    (∀ b s r, ∀ i ∈ (fetchEquipos b s r).2, i.stateAtIssue.loading = true) ∧
    (∀ b s cr rr, ∀ i ∈ (handleSubmit b s cr rr).2,
      i.stateAtIssue.loading = true) ∧
    (∀ b s id dr rr, ∀ i ∈ (handleDelete b s true id dr rr).2,
      i.stateAtIssue.deletingId = some id) :=
  ⟨fetchEquipos_trace_loading, handleSubmit_trace_loading,
    handleDelete_trace_deletingId⟩

/-- Witness for the amended C2: the list GET on a network error is issued
with `loading` true. -/
theorem claim2_amended_witness :
    (TraceItem.mk (Request.get baseUrlMain) { sExample with loading := true }) ∈
      (fetchEquipos baseUrlMain sExample (.networkError "x")).2 ∧
    (TraceItem.mk (Request.get baseUrlMain)
        { sExample with loading := true }).stateAtIssue.loading = true :=
  ⟨by decide, claim2_amended.1 baseUrlMain sExample (.networkError "x") _
    (by decide)⟩

/-- C3 counterexample: on the same state and backend response, the two
copies do not issue the same requests — the list GET of src/src/Equipos.js
targets a different URL than that of src/unnamed/part_000. -/
theorem claim3_counterexample :
    ((fetchEquipos baseUrlMain sExample
        (.response 200 (.json none none))).2.map (fun i => i.req)) ≠
    ((fetchEquipos baseUrlAlt sExample
        (.response 200 (.json none none))).2.map (fun i => i.req)) := by
  decide

/-- C3 amended: the two copies differ in styling and in the base URL
constant; for every state, user action and backend response they compute
identical state transitions, and their request traces correspond item by
item — same observed state, same form fields, same method, with URLs
differing exactly by the base URL. -/
theorem claim3_amended :
    (∀ s r, (fetchEquipos baseUrlMain s r).1 = (fetchEquipos baseUrlAlt s r).1 ∧
      List.Forall₂ itemCorr (fetchEquipos baseUrlMain s r).2
        (fetchEquipos baseUrlAlt s r).2) ∧
    (∀ s cr rr, (handleSubmit baseUrlMain s cr rr).1 =
        (handleSubmit baseUrlAlt s cr rr).1 ∧
      List.Forall₂ itemCorr (handleSubmit baseUrlMain s cr rr).2
        (handleSubmit baseUrlAlt s cr rr).2) ∧
    (∀ s c id dr rr, (handleDelete baseUrlMain s c id dr rr).1 =
        (handleDelete baseUrlAlt s c id dr rr).1 ∧
      List.Forall₂ itemCorr (handleDelete baseUrlMain s c id dr rr).2
        (handleDelete baseUrlAlt s c id dr rr).2) :=
  ⟨fun s r => ⟨fetchEquipos_fst_indep baseUrlMain baseUrlAlt s r,
      fetchEquipos_corr s r⟩,
    fun s cr rr => ⟨handleSubmit_fst_indep baseUrlMain baseUrlAlt s cr rr,
      handleSubmit_corr s cr rr⟩,
    fun s c id dr rr =>
      ⟨handleDelete_fst_indep baseUrlMain baseUrlAlt s c id dr rr,
        handleDelete_corr s c id dr rr⟩⟩

/-- C8 counterexample: a non-2xx, non-555 create response (status 500)
whose server message contains the substring "555" does not surface the
server message verbatim — the catch block appends the configuration hint
based on message content alone. -/
theorem claim8_counterexample :
    statusOk 500 = false ∧ (500 : Nat) ≠ 555 ∧
    (handleSubmit baseUrlMain sExample
        (.response 500 (.json (some "codigo 555") none))
        (.networkError "x")).1.error =
      some "codigo 555 - Verifica la configuración del endpoint REST" ∧
    ("codigo 555 - Verifica la configuración del endpoint REST" : String) ≠
      "codigo 555" := by
  decide

/-- C8 amended: on a non-2xx create response with status other than 555 and
a parsed JSON body, `error` is the server message when present, else the
fallback "Error <status>", except that the configuration hint is appended
whenever that message happens to contain the substring "555" (the status
code itself is not consulted by the catch block). -/
theorem claim8_amended (b : String) (s : ClientState) (status : Nat)
    (message : Option String) (items : Option (List Equipo)) (rr : FetchResult)
    (hv : anyFieldEmpty s.formValues = false) (hok : statusOk status = false)
    (h555 : status ≠ 555) :
    (handleSubmit b s (.response status (.json message items)) rr).1.error =
      some
        (if strIncludes (message.getD ("Error " ++ toString status)) "555"
         then (message.getD ("Error " ++ toString status)) ++ hint
         else message.getD ("Error " ++ toString status)) := by
  have hbeq : (status == 555) = false := by simp [h555]
  simp [handleSubmit, hv, hok, hbeq, applyCatch_error]

/-- Witness for the amended C8: a plain 404 with no body message yields the
fallback "Error 404" with no hint. -/
theorem claim8_witness :
    anyFieldEmpty sExample.formValues = false ∧ statusOk 404 = false ∧
    (404 : Nat) ≠ 555 ∧
    (handleSubmit baseUrlMain sExample (.response 404 (.json none none))
        (.networkError "x")).1.error = some "Error 404" := by
  refine ⟨by decide, by decide, by decide, ?_⟩
  have h := claim8_amended baseUrlMain sExample 404 none none
    (.networkError "x") (by decide) (by decide) (by decide)
  rw [h]
  decide
